import Mathlib

/-!
Shallow embedding of the hook decision engine of `gewe-cc` (Rust sources
`src/config.rs`, `src/hook.rs`, `src/main.rs`, `src/server.rs`).

The filesystem under `~/.gewe-cc/` is modelled by an explicit state `St`:
the config record `config.toml` (absent, unreadable/unparsable, or a parsed
`Config`), the bare `remote.lock` marker, the `session_disabled.json` set
(absent, invalid JSON, or a parsed list of ids), the `sessions.json`
registry, and a log of Messenger subprocess invocations.  Filesystem writes
are modelled as always succeeding; the three distinct read-failure modes of
`ConfigManager::load` (missing, unreadable, unparsable) collapse to the
single error its callers observe.  Reading and parsing stdin is performed by
the external `serde_json` collaborator, so it is modelled as an
`Option HookInput` argument (`none` = read or parse failure).
-/

deriving instance DecidableEq for Except

namespace GeweCC

/-- Mirrors `RemoteConfig` in `config.rs`. -/
structure RemoteConfig where
  enabled : Bool
deriving DecidableEq, Repr

/-- Mirrors `NotificationConfig` in `config.rs`. -/
structure NotificationConfig where
  channel : String
  wxid : String
  listen : String
  transcript_domain : String
deriving DecidableEq, Repr

/-- Mirrors `GeweCliConfig` in `config.rs`. -/
structure GeweCliConfig where
  command : String
  timeout : Nat
deriving DecidableEq, Repr

/-- Mirrors `Config` in `config.rs`. -/
structure Config where
  remote : RemoteConfig
  notification : NotificationConfig
  gewe_cli : GeweCliConfig
deriving DecidableEq, Repr

/-- Mirrors `default_gewe_cli_command` in `config.rs`. -/
def default_gewe_cli_command : String := "gewe-cli"

/-- Mirrors `default_timeout` in `config.rs` (0 = wait forever). -/
def default_timeout : Nat := 0

/-- Mirrors `impl Default for NotificationConfig` in `config.rs`. -/
def NotificationConfig.default : NotificationConfig :=
  { channel := "wechat", wxid := "", listen := "", transcript_domain := "" }

/-- Mirrors `impl Default for Config` in `config.rs`. -/
def Config.default : Config :=
  { remote := { enabled := false }
    notification := NotificationConfig.default
    gewe_cli := { command := default_gewe_cli_command, timeout := default_timeout } }

/-- One Messenger subprocess invocation (`gewe-cli message send-text --to wxid --content c`). -/
structure MessengerCall where
  command : String
  wxid : String
  content : String
deriving DecidableEq, Repr

/-- The persistent state a `ConfigManager` (rooted at `~/.gewe-cc/`) operates on.
`configFile`: `none` = `config.toml` absent, `some none` = present but
unreadable or unparsable, `some (some c)` = parses to `c`.
`sessionFile`: likewise for `session_disabled.json`, whose invalid-JSON case
is `some none` and whose parsed content is a set of ids (modelled as a list;
membership is what matters).
`registry` models `sessions.json` (`SessionRegistry` in `server.rs`) as an
association list, and `messengerSent` logs Messenger subprocess calls. -/
structure St where
  configFile : Option (Option Config)
  lockFile : Bool
  sessionFile : Option (Option (List String))
  registry : List (String × String)
  messengerSent : List MessengerCall
deriving DecidableEq, Repr

/-- Mirrors `ConfigManager::load`: errors (here `none`) when `config.toml` is
missing, unreadable or unparsable; otherwise returns the parsed config. -/
def load (s : St) : Option Config :=
  match s.configFile with
  | none => none
  | some none => none
  | some (some c) => some c

/-- Mirrors `ConfigManager::save`: writes the record, so afterwards the file
exists and parses to exactly the saved config. -/
def save (s : St) (c : Config) : St :=
  { s with configFile := some (some c) }

/-- Mirrors `ConfigManager::is_remote_enabled`: the lock file wins; else the
config flag; a failing `load` falls through to `false`.  Total by type, so a
store failure can never surface as an error. -/
def is_remote_enabled (s : St) : Bool :=
  if s.lockFile then true
  else
    match load s with
    | some config => config.remote.enabled
    | none => false

/-- Mirrors `ConfigManager::enable_remote`: load-or-default the record, set
`enabled = true`, save it, then create the lock file. -/
def enable_remote (s : St) : St :=
  let config := (load s).getD Config.default
  let config := { config with remote := { config.remote with enabled := true } }
  let s := save s config
  { s with lockFile := true }

/-- Mirrors `ConfigManager::disable_remote`: only `if let Ok(config) = load()`
is the record rewritten with `enabled = false`; the lock file is removed
unconditionally. -/
def disable_remote (s : St) : St :=
  let s :=
    match load s with
    | some config => save s { config with remote := { config.remote with enabled := false } }
    | none => s
  { s with lockFile := false }

/-- Mirrors `ConfigManager::load_disabled_sessions`: a missing file is the
empty set, and invalid JSON is `unwrap_or_default()`-ed to the empty set. -/
def load_disabled_sessions (s : St) : List String :=
  match s.sessionFile with
  | none => []
  | some none => []
  | some (some sessions) => sessions

/-- Mirrors `ConfigManager::save_disabled_sessions`. -/
def save_disabled_sessions (s : St) (sessions : List String) : St :=
  { s with sessionFile := some (some sessions) }

/-- Rust `char::is_whitespace`: the Unicode White_Space property.  The
character list is the full White_Space set: TAB, LF, VT, FF, CR, SPACE, NEL,
NO-BREAK SPACE, OGHAM SPACE MARK, EN QUAD through HAIR SPACE, LINE SEPARATOR,
PARAGRAPH SEPARATOR, NARROW NO-BREAK SPACE, MEDIUM MATHEMATICAL SPACE, and
IDEOGRAPHIC SPACE. -/
def isUnicodeWhitespace (c : Char) : Bool :=
  c.toNat = 0x09 || c.toNat = 0x0A || c.toNat = 0x0B || c.toNat = 0x0C
    || c.toNat = 0x0D || c.toNat = 0x20 || c.toNat = 0x85 || c.toNat = 0xA0
    || c.toNat = 0x1680 || (0x2000 ≤ c.toNat && c.toNat ≤ 0x200A)
    || c.toNat = 0x2028 || c.toNat = 0x2029 || c.toNat = 0x202F
    || c.toNat = 0x205F || c.toNat = 0x3000

/-- Models Rust `session_id.trim().is_empty()`: `str::trim` strips characters
with the Unicode White_Space property from both ends, so the result is empty
iff every character of the string has that property. -/
def trimIsEmpty (s : String) : Bool :=
  s.data.all isUnicodeWhitespace

/-- Set insertion on the list model of `HashSet<String>::insert`. -/
def insertSession (id : String) (sessions : List String) : List String :=
  if sessions.contains id then sessions else id :: sessions

/-- Mirrors `ConfigManager::disable_session`: a whitespace-only id returns
immediately without touching the store. -/
def disable_session (s : St) (session_id : String) : St :=
  if trimIsEmpty session_id then s
  else save_disabled_sessions s (insertSession session_id (load_disabled_sessions s))

/-- Mirrors `ConfigManager::is_session_disabled`: false for a whitespace-only
id, otherwise membership in the loaded set (a failing load reads as false). -/
def is_session_disabled (s : St) (session_id : String) : Bool :=
  if trimIsEmpty session_id then false
  else (load_disabled_sessions s).contains session_id

/-- Mirrors `SessionRegistry::register` in `server.rs` (`HashMap::insert`
followed by a best-effort save): replaces any existing binding for the id. -/
def registryInsert (session_id transcript_path : String) (r : List (String × String)) :
    List (String × String) :=
  (session_id, transcript_path) :: r.filter (fun p => p.1 != session_id)

/-- Mirrors `HookInput` in `hook.rs`; every field is `#[serde(default)]`.
Paths (`PathBuf`) are modelled as strings. -/
structure HookInput where
  session_id : String := ""
  prompt : Option String := none
  cwd : Option String := none
  transcript_path : Option String := none
  stop_hook_active : Bool := false
  user_prompt : Option String := none
deriving DecidableEq, Repr

/-- Mirrors `HookDecision` in `hook.rs` (serde tag `decision`, lowercase). -/
inductive HookDecision where
  | approve
  | block (reason : String)
deriving DecidableEq, Repr

/-- True exactly on `block`. -/
def HookDecision.isBlock : HookDecision → Bool
  | .approve => false
  | .block _ => true

/-- True exactly on `approve`. -/
def HookDecision.isApprove : HookDecision → Bool
  | .approve => true
  | .block _ => false

/-- Lower-case hex digit, for the JSON control-character escapes. -/
def hexDigit (n : Nat) : String :=
  String.singleton (if n < 10 then Char.ofNat (48 + n) else Char.ofNat (87 + n))

/-- How `serde_json` escapes one character inside a JSON string literal. -/
def escapeJsonChar (c : Char) : String :=
  if c = '"' then "\\\""
  else if c = '\\' then "\\\\"
  else if c = '\x08' then "\\b"
  else if c = '\x0c' then "\\f"
  else if c = '\n' then "\\n"
  else if c = '\r' then "\\r"
  else if c = '\t' then "\\t"
  else if c.toNat < 32 then "\\u00" ++ hexDigit (c.toNat / 16) ++ hexDigit (c.toNat % 16)
  else String.singleton c

/-- `serde_json` string-body escaping. -/
def escapeJson (s : String) : String :=
  String.join (s.data.map escapeJsonChar)

/-- Mirrors `HookDecision::to_json` (`serde_json::to_string` of the tagged
enum): the tag field `decision` is emitted first. -/
def HookDecision.to_json : HookDecision → String
  | .approve => "\x7b\"decision\":\"approve\"\x7d"
  | .block reason => "\x7b\"decision\":\"block\",\"reason\":\"" ++ escapeJson reason ++ "\"\x7d"

/-- The fatal-error taxonomy the hook path can produce: stdin unreadable or
unparsable, an unknown event-kind argument, or `ConfigManager::load` failing
inside a handler that needs the record. -/
inductive HookErr where
  | malformedInput
  | unknownEventKind
  | configUnavailable
deriving DecidableEq, Repr

/-- Model of Rust `Path::file_name` on the string model of paths: the last
real component, `none` for an empty path or one ending in `..`. -/
def pathFileName (p : String) : Option String :=
  match ((p.splitOn "/").filter (fun comp => comp != "" && comp != ".")).getLast? with
  | none => none
  | some last => if last = ".." then none else some last

/-- Reason text of `handle_remote_on` in `hook.rs`. -/
def remoteOnReason (config : Config) : String :=
  "✅ 远程模式已启用\n\n配置信息：\n- 目标微信：" ++ config.notification.wxid
    ++ "\n- 监听地址：" ++ config.notification.listen
    ++ "\n- 标记文件：~/.gewe-cc/remote.lock\n\n任务完成后将自动等待微信指令。"

/-- Mirrors `handle_remote_on` in `hook.rs`: enable, then re-load the record
(the `?` on `load`) to build the confirmation text. -/
def handle_remote_on (s : St) : Except HookErr (HookDecision × St) :=
  let s := enable_remote s
  match load s with
  | none => .error .configUnavailable
  | some config => .ok (.block (remoteOnReason config), s)

/-- The warning `handle_remote_off` appends when no session id was supplied. -/
def remoteOffWarning : String := "\n\n⚠️ 未获取到会话 ID，无法记录会话禁用状态。"

/-- Reason text of `handle_remote_off` in `hook.rs`. -/
def remoteOffReason (session_id extra : String) : String :=
  "✅ 当前会话的远程模式已关闭\n\n会话 ID: " ++ session_id
    ++ "\n\n全局远程模式仍处于启用状态，后续新任务将继续进入远程控制。" ++ extra

/-- Mirrors `handle_remote_off` in `hook.rs`: a whitespace-only id gets the
warning and no record; otherwise the session is recorded as disabled.  The
global flag and the lock file are never touched. -/
def handle_remote_off (s : St) (session_id : String) : Except HookErr (HookDecision × St) :=
  if trimIsEmpty session_id then
    .ok (.block (remoteOffReason session_id remoteOffWarning), s)
  else
    .ok (.block (remoteOffReason session_id ""), disable_session s session_id)

/-- Reason text of `handle_remote_status` in `hook.rs`. -/
def remoteStatusReason (config : Config) (enabled : Bool) : String :=
  let status := if enabled then "✅ 已启用" else "❌ 未启用"
  if enabled then
    "📊 远程模式状态\n\n状态：" ++ status ++ "\n配置：\n- 目标微信：" ++ config.notification.wxid
      ++ "\n- 监听地址：" ++ config.notification.listen ++ "\n- 标记文件：~/.gewe-cc/remote.lock"
  else
    "📊 远程模式状态\n\n状态：" ++ status ++ "\n\n使用 >remote-on 启用远程模式。"

/-- Mirrors `handle_remote_status` in `hook.rs`: `load()?` then a pure read of
the enabled bit. -/
def handle_remote_status (s : St) : Except HookErr (HookDecision × St) :=
  match load s with
  | none => .error .configUnavailable
  | some config => .ok (.block (remoteStatusReason config (is_remote_enabled s)), s)

/-- Mirrors `handle_user_prompt_submit` in `hook.rs`: the three reserved
commands short-circuit to their responders; anything else is approved. -/
def handle_user_prompt_submit (input : HookInput) (s : St) : Except HookErr (HookDecision × St) :=
  match input.prompt with
  | some p =>
    if p = ">remote-on" then handle_remote_on s
    else if p = ">remote-off" then handle_remote_off s input.session_id
    else if p = ">remote-status" then handle_remote_status s
    else .ok (.approve, s)
  | none => .ok (.approve, s)

/-- Project name and directory text interpolated into the Stop reason. -/
def projectName (cwd : Option String) : String :=
  (cwd.bind pathFileName).getD "unknown"

/-- Reason text of `handle_stop` in `hook.rs` (custom `user_prompt` text, or
the default skill-activation instruction). -/
def stopReason (input : HookInput) : String :=
  let cwdText := input.cwd.getD "unknown"
  match input.user_prompt with
  | some custom =>
    "🔄 远程模式已启用\n\n" ++ custom ++ "\n\n上下文信息：\n- 项目: " ++ projectName input.cwd
      ++ "\n- 目录: " ++ cwdText ++ "\n- 会话: " ++ input.session_id
  | none =>
    "🔄 远程模式已启用 - 如果未激活，请立即激活 remote-control skill\n\n执行：/gewe-cc:remote-control\n\n上下文信息：\n- 项目: "
      ++ projectName input.cwd ++ "\n- 目录: " ++ cwdText ++ "\n- 会话: " ++ input.session_id

/-- Mirrors `handle_stop` in `hook.rs`: loop guard, global-enabled gate,
session-disable gate, best-effort registry write, then block. -/
def handle_stop (input : HookInput) (s : St) : Except HookErr (HookDecision × St) :=
  if input.stop_hook_active then .ok (.approve, s)
  else if !is_remote_enabled s then .ok (.approve, s)
  else if is_session_disabled s input.session_id then .ok (.approve, s)
  else
    let s :=
      match input.transcript_path with
      | some tp => { s with registry := registryInsert input.session_id tp s.registry }
      | none => s
    .ok (.block (stopReason input), s)

/-- The idle-notification message built by `handle_notification` in `hook.rs`. -/
def notificationMessage (input : HookInput) : String :=
  "【Claude Code】\n⚠️ 会话可能挂起\n📁 项目: " ++ projectName input.cwd
    ++ "\n🕐 检测到 60 秒以上无响应\n\n请检查终端是否在等待输入。\n会话 ID: " ++ input.session_id

/-- Mirrors `handle_notification` in `hook.rs`: approve at once when remote
mode is off; otherwise `load()?`, fire the Messenger subprocess (its own
failure is swallowed), and approve. -/
def handle_notification (input : HookInput) (s : St) : Except HookErr (HookDecision × St) :=
  if !is_remote_enabled s then .ok (.approve, s)
  else
    match load s with
    | none => .error .configUnavailable
    | some config =>
      let call : MessengerCall :=
        { command := config.gewe_cli.command
          wxid := config.notification.wxid
          content := notificationMessage input }
      .ok (.approve, { s with messengerSent := s.messengerSent ++ [call] })

/-- Mirrors `HookHandler::handle` in `hook.rs`: dispatch on the event-kind
string; anything unknown is fatal. -/
def HookHandler.handle (hook_type : String) (input : HookInput) (s : St) :
    Except HookErr (HookDecision × St) :=
  if hook_type = "user-prompt-submit" then handle_user_prompt_submit input s
  else if hook_type = "stop" then handle_stop input s
  else if hook_type = "notification" then handle_notification input s
  else .error .unknownEventKind

/-- Mirrors `HookHandler::handle_from_stdin` in `hook.rs`: stdin is read and
parsed first (`none` = read failure or malformed JSON), and only then is the
event kind dispatched. -/
def HookHandler.handle_from_stdin (hook_type : String) (stdin : Option HookInput) (s : St) :
    Except HookErr (HookDecision × St) :=
  match stdin with
  | none => .error .malformedInput
  | some input => HookHandler.handle hook_type input s

/-- Mirrors the `Commands::Hook` branch of `main` in `main.rs`: on success the
decision JSON is printed to stdout; a fatal error prints nothing (the `?`
propagates before `decision.output()`), and no error path mutates the store. -/
def main_hook (hook_type : String) (stdin : Option HookInput) (s : St) : Option String × St :=
  match HookHandler.handle_from_stdin hook_type stdin s with
  | .ok (decision, s) => (some decision.to_json, s)
  | .error _ => (none, s)

/-- True iff the prompt is one of the three reserved control commands of
`handle_user_prompt_submit`. -/
def isReservedCommand : Option String → Bool
  | some p => p == ">remote-on" || p == ">remote-off" || p == ">remote-status"
  | none => false

/-! Concrete states and inputs used by witnesses and counterexamples. -/

/-- Fresh store: nothing persisted yet. -/
def st0 : St :=
  { configFile := none, lockFile := false, sessionFile := none, registry := [], messengerSent := [] }

/-- A fully-populated config record with remote mode on. -/
def cfgOn : Config :=
  { remote := { enabled := true }
    notification := { channel := "wechat", wxid := "w", listen := "l", transcript_domain := "" }
    gewe_cli := { command := "gewe-cli", timeout := 0 } }

/-- Enabled store (lock present, record enabled) whose disabled-session set
holds the whitespace-only id. -/
def stWs : St :=
  { configFile := some (some cfgOn), lockFile := true, sessionFile := some (some [" "])
    registry := [], messengerSent := [] }

/-- Store with only the lock artifact present. -/
def stLockOnly : St := { st0 with lockFile := true }

/-! Helper lemmas. -/

/-- A string whose length is positive is not the empty string. -/
theorem ne_empty_of_length_pos (a : String) (h : 0 < a.length) : a ≠ "" := by
  intro he
  rw [he] at h
  simp at h

/-- Concatenation on the left preserves positive length. -/
theorem length_append_pos_left (a b : String) (h : 0 < a.length) : 0 < (a ++ b).length := by
  rw [String.length_append]
  omega

/-- Inserting an id into the session-set model makes it a member. -/
theorem mem_insertSession (id : String) (l : List String) : id ∈ insertSession id l := by
  unfold insertSession
  split
  · next hc => simpa using hc
  · exact List.mem_cons_self id l

/-! Claims. -/

/-- C1: every Stop event whose input has `stop_hook_active = true` is
approved by the dispatcher, whatever the store state and the other input
fields are (the loop guard fires before any store read). -/
theorem stop_hook_active_always_approves (input : HookInput) (s : St)
    (h : input.stop_hook_active = true) :
    HookHandler.handle "stop" input s = .ok (.approve, s) := by
  simp [HookHandler.handle, handle_stop, h]

/-- Witness for C1 at a concrete input and the fresh store. -/
theorem stop_hook_active_always_approves_witness :
    ({ stop_hook_active := true } : HookInput).stop_hook_active = true
    ∧ HookHandler.handle "stop" { stop_hook_active := true } st0 = .ok (.approve, st0) :=
  ⟨rfl, stop_hook_active_always_approves { stop_hook_active := true } st0 rfl⟩

/-- C2: with global remote mode disabled, a non-command PromptSubmit, a Stop
and a Notification event are all approved with the store untouched, and the
Notification handler never invokes the Messenger subprocess. -/
theorem remote_disabled_all_approve (s : St) (input : HookInput)
    (hd : is_remote_enabled s = false)
    (hp : isReservedCommand input.prompt = false) :
    HookHandler.handle "user-prompt-submit" input s = .ok (.approve, s)
    ∧ HookHandler.handle "stop" input s = .ok (.approve, s)
    ∧ HookHandler.handle "notification" input s = .ok (.approve, s)
    ∧ (HookHandler.handle "notification" input s).map (fun r => r.2.messengerSent)
        = .ok s.messengerSent := by
  refine ⟨?_, ?_, ?_, ?_⟩
  · cases hpr : input.prompt with
    | none => simp [HookHandler.handle, handle_user_prompt_submit, hpr]
    | some p =>
      rw [hpr] at hp
      simp only [isReservedCommand, Bool.or_eq_false_iff, beq_eq_false_iff_ne] at hp
      simp [HookHandler.handle, handle_user_prompt_submit, hpr, hp.1.1, hp.1.2, hp.2]
  · cases hsa : input.stop_hook_active
    · simp [HookHandler.handle, handle_stop, hsa, hd]
    · simp [HookHandler.handle, handle_stop, hsa]
  · simp [HookHandler.handle, handle_notification, hd]
  · simp [HookHandler.handle, handle_notification, hd, Except.map]

/-- Witness for C2 at a concrete non-command input and the fresh store. -/
theorem remote_disabled_all_approve_witness :
    is_remote_enabled st0 = false
    ∧ isReservedCommand ({ prompt := some "hello" } : HookInput).prompt = false
    ∧ HookHandler.handle "stop" { prompt := some "hello" } st0 = .ok (.approve, st0) :=
  ⟨by decide, by decide,
    (remote_disabled_all_approve st0 { prompt := some "hello" } (by decide) (by decide)).2.1⟩

/-- C3: `is_remote_enabled` returns true whenever the lock artifact exists;
without it, it returns the persisted config flag; and when the record is
missing or unreadable it returns false.  Being `Bool`-valued and total, it
can never surface a store failure as an error. -/
theorem is_remote_enabled_spec (s : St) :
    (s.lockFile = true → is_remote_enabled s = true)
    ∧ (∀ c, s.lockFile = false → load s = some c → is_remote_enabled s = c.remote.enabled)
    ∧ (s.lockFile = false → load s = none → is_remote_enabled s = false) := by
  refine ⟨fun h => by simp [is_remote_enabled, h],
    fun c h hc => by simp [is_remote_enabled, h, hc],
    fun h hc => by simp [is_remote_enabled, h, hc]⟩

/-- Witness for C3: the lock alone forces enabled even with no record. -/
theorem is_remote_enabled_spec_witness :
    stLockOnly.lockFile = true ∧ is_remote_enabled stLockOnly = true :=
  ⟨rfl, (is_remote_enabled_spec stLockOnly).1 rfl⟩

/-- C4 counterexample: the whitespace-only session id `" "` is a non-empty
string, it is contained in the disabled-session set of `stWs`, remote mode is
globally enabled, and yet the Stop event for it is blocked, not approved —
`is_session_disabled` ignores ids that trim to empty. -/
theorem session_disabled_whitespace_blocks :
    (" " : String) ≠ ""
    ∧ (load_disabled_sessions stWs).contains " " = true
    ∧ is_remote_enabled stWs = true
    ∧ ({ session_id := " " } : HookInput).stop_hook_active = false
    ∧ (HookHandler.handle "stop" { session_id := " " } stWs).map (fun r => r.1.isApprove)
        = .ok false :=
  ⟨by decide, by decide, by decide, rfl, by decide⟩

/-- C4 amended: for a session id whose whitespace-trimmed form is non-empty
and which is in the disabled-session set, with remote mode globally enabled,
Stop (with `stop_hook_active = false`) is approved; the reserved commands
still reach their responders: `>remote-on` and `>remote-off` return Block,
and `>remote-status` returns Block whenever the config record is loadable. -/
theorem session_disabled_amended (s : St) (input : HookInput)
    (hid : trimIsEmpty input.session_id = false)
    (hmem : (load_disabled_sessions s).contains input.session_id = true)
    (hen : is_remote_enabled s = true)
    (hsh : input.stop_hook_active = false) :
    HookHandler.handle "stop" input s = .ok (.approve, s)
    ∧ (HookHandler.handle "user-prompt-submit" { input with prompt := some ">remote-on" } s).map
        (fun r => r.1.isBlock) = .ok true
    ∧ (HookHandler.handle "user-prompt-submit" { input with prompt := some ">remote-off" } s).map
        (fun r => r.1.isBlock) = .ok true
    ∧ (∀ c, load s = some c →
        (HookHandler.handle "user-prompt-submit" { input with prompt := some ">remote-status" } s).map
          (fun r => r.1.isBlock) = .ok true) := by
  refine ⟨?_, ?_, ?_, ?_⟩
  · have hmem' : input.session_id ∈ load_disabled_sessions s := by simpa using hmem
    simp [HookHandler.handle, handle_stop, hsh, hen, is_session_disabled, hid, hmem']
  · simp [HookHandler.handle, handle_user_prompt_submit, handle_remote_on, enable_remote, save,
      load, Except.map, HookDecision.isBlock]
  · cases hti : trimIsEmpty input.session_id <;>
      simp [HookHandler.handle, handle_user_prompt_submit, handle_remote_off, hti, Except.map,
        HookDecision.isBlock]
  · intro c hc
    simp [HookHandler.handle, handle_user_prompt_submit, handle_remote_status, hc, Except.map,
      HookDecision.isBlock]

/-- A store with remote mode on and session `s1` disabled. -/
def stDis : St :=
  { configFile := some (some cfgOn), lockFile := true, sessionFile := some (some ["s1"])
    registry := [], messengerSent := [] }

/-- Witness for the amended C4 at session `s1`. -/
theorem session_disabled_amended_witness :
    trimIsEmpty "s1" = false
    ∧ (load_disabled_sessions stDis).contains "s1" = true
    ∧ is_remote_enabled stDis = true
    ∧ HookHandler.handle "stop" { session_id := "s1" } stDis = .ok (.approve, stDis) :=
  ⟨by decide, by decide, by decide,
    (session_disabled_amended stDis { session_id := "s1" } (by decide) (by decide) (by decide)
      rfl).1⟩

/-- The `remote-on` confirmation text is never empty. -/
theorem remoteOnReason_ne_empty (c : Config) : remoteOnReason c ≠ "" := by
  unfold remoteOnReason
  apply ne_empty_of_length_pos
  repeat
    first
    | apply length_append_pos_left
    | decide

/-- The `remote-off` confirmation text is never empty. -/
theorem remoteOffReason_ne_empty (id extra : String) : remoteOffReason id extra ≠ "" := by
  unfold remoteOffReason
  apply ne_empty_of_length_pos
  repeat
    first
    | apply length_append_pos_left
    | decide

/-- The `remote-status` text is never empty. -/
theorem remoteStatusReason_ne_empty (c : Config) (enabled : Bool) :
    remoteStatusReason c enabled ≠ "" := by
  unfold remoteStatusReason
  cases enabled <;>
    · simp only [Bool.false_eq_true, if_false, if_true, reduceIte]
      apply ne_empty_of_length_pos
      repeat
        first
        | apply length_append_pos_left
        | decide

/-- The Stop block reason is never empty (both the custom-prompt and the
default templates begin with a non-empty literal). -/
theorem stopReason_ne_empty (input : HookInput) : stopReason input ≠ "" := by
  unfold stopReason
  cases input.user_prompt <;>
    · apply ne_empty_of_length_pos
      repeat
        first
        | apply length_append_pos_left
        | decide

/-- Any Block produced by `handle_user_prompt_submit` carries a non-empty
reason. -/
theorem upt_block_reason_ne_empty (input : HookInput) (s : St) (r : String) (s2 : St)
    (h : handle_user_prompt_submit input s = .ok (.block r, s2)) : r ≠ "" := by
  unfold handle_user_prompt_submit at h
  split at h
  · split at h
    · simp only [handle_remote_on, enable_remote, save, load] at h
      simp only [Except.ok.injEq, Prod.mk.injEq, HookDecision.block.injEq] at h
      rw [← h.1]
      apply remoteOnReason_ne_empty
    · split at h
      · unfold handle_remote_off at h
        split at h <;>
          · simp only [Except.ok.injEq, Prod.mk.injEq, HookDecision.block.injEq] at h
            rw [← h.1]
            apply remoteOffReason_ne_empty
      · split at h
        · unfold handle_remote_status at h
          split at h
          · simp at h
          · simp only [Except.ok.injEq, Prod.mk.injEq, HookDecision.block.injEq] at h
            rw [← h.1]
            apply remoteStatusReason_ne_empty
        · simp at h
  · simp at h

/-- Any Block produced by `handle_stop` carries a non-empty reason. -/
theorem stop_block_reason_ne_empty (input : HookInput) (s : St) (r : String) (s2 : St)
    (h : handle_stop input s = .ok (.block r, s2)) : r ≠ "" := by
  unfold handle_stop at h
  split at h
  · simp at h
  · split at h
    · simp at h
    · split at h
      · simp at h
      · simp only [Except.ok.injEq, Prod.mk.injEq, HookDecision.block.injEq] at h
        rw [← h.1]
        apply stopReason_ne_empty

/-- `handle_notification` never blocks at all. -/
theorem notification_never_blocks (input : HookInput) (s : St) (r : String) (s2 : St)
    (h : handle_notification input s = .ok (.block r, s2)) : False := by
  unfold handle_notification at h
  split at h
  · simp at h
  · split at h <;> simp at h

/-- C5: `Approve` serializes to exactly the approve object; every
`Block{reason}` serializes with the `decision` key (value `block`) preceding
the `reason` key; and every Block the dispatcher returns has a non-empty
reason. -/
theorem decision_json_contract :
    HookDecision.approve.to_json = "\x7b\"decision\":\"approve\"\x7d"
    ∧ (∀ r, (HookDecision.block r).to_json
        = "\x7b\"decision\":\"block\",\"reason\":\"" ++ escapeJson r ++ "\"\x7d")
    ∧ (∀ r, ∃ rest, (HookDecision.block r).to_json
        = "\x7b\"decision\":\"block\",\"reason\"" ++ rest)
    ∧ (∀ ht input s r s2, HookHandler.handle ht input s = .ok (.block r, s2) → r ≠ "") := by
  refine ⟨rfl, fun r => rfl, ?_, ?_⟩
  · intro r
    refine ⟨":\"" ++ (escapeJson r ++ "\"\x7d"), ?_⟩
    have hlit : ("\x7b\"decision\":\"block\",\"reason\":\"" : String)
        = "\x7b\"decision\":\"block\",\"reason\"" ++ ":\"" := by decide
    show ("\x7b\"decision\":\"block\",\"reason\":\"" ++ escapeJson r ++ "\"\x7d") = _
    rw [hlit]
    simp only [String.append_assoc]
  · intro ht input s r s2 h
    unfold HookHandler.handle at h
    split at h
    · exact upt_block_reason_ne_empty input s r s2 h
    · split at h
      · exact stop_block_reason_ne_empty input s r s2 h
      · split at h
        · exact (notification_never_blocks input s r s2 h).elim
        · simp at h

/-- Witness for C5 on the `>remote-off` responder with no session id. -/
theorem decision_json_contract_witness :
    HookHandler.handle "user-prompt-submit" { prompt := some ">remote-off" } st0
      = .ok (.block (remoteOffReason "" remoteOffWarning), st0)
    ∧ remoteOffReason "" remoteOffWarning ≠ "" :=
  ⟨by decide,
    decision_json_contract.2.2.2 "user-prompt-submit" { prompt := some ">remote-off" } st0
      (remoteOffReason "" remoteOffWarning) st0 (by decide)⟩

/-- Store with the lock present but no config record at all. -/
def stNoCfg : St :=
  { configFile := none, lockFile := true, sessionFile := none, registry := [], messengerSent := [] }

/-- C6 counterexample: from a state with the lock present and the config
record missing, `disable_remote` removes the lock but writes nothing to the
config record (the `if let Ok(config) = load()` guard skips the save), so the
claim that both persistence paths are written in every starting state is
false. -/
theorem disable_remote_no_config_write :
    stNoCfg.configFile = none
    ∧ (disable_remote stNoCfg).lockFile = false
    ∧ (disable_remote stNoCfg).configFile = none :=
  ⟨rfl, by decide, by decide⟩

/-- C6 amended: `enable_remote` writes both paths in every starting state
(an enabled record and the lock); `disable_remote` always removes the lock,
but rewrites the record with `enabled = false` only when the existing record
is loadable — with a missing or unreadable record it leaves the record
untouched. -/
theorem enable_disable_sync_amended (s : St) :
    (enable_remote s).lockFile = true
    ∧ (∃ c, (enable_remote s).configFile = some (some c) ∧ c.remote.enabled = true)
    ∧ (disable_remote s).lockFile = false
    ∧ (∀ c, load s = some c →
        (disable_remote s).configFile
          = some (some { c with remote := { c.remote with enabled := false } }))
    ∧ (load s = none → (disable_remote s).configFile = s.configFile) := by
  refine ⟨rfl, ?_, rfl, ?_, ?_⟩
  · exact ⟨_, rfl, rfl⟩
  · intro c hc
    simp [disable_remote, hc, save]
  · intro hc
    simp [disable_remote, hc]

/-- Witness for the amended C6: disabling from the enabled store rewrites the
record with the flag off. -/
theorem enable_disable_sync_amended_witness :
    load stDis = some cfgOn
    ∧ (disable_remote stDis).configFile
        = some (some { cfgOn with remote := { cfgOn.remote with enabled := false } }) :=
  ⟨rfl, (enable_disable_sync_amended stDis).2.2.2.1 cfgOn rfl⟩

/-- C7 counterexample: with an unknown event kind and malformed stdin, the
failure reported is the malformed-input error, not the unknown-kind error —
stdin is read and parsed before the event kind is examined, contradicting
the claim that an unknown kind fails before any JSON is read. -/
theorem unknown_kind_not_before_stdin :
    HookHandler.handle_from_stdin "bogus" none st0 = .error .malformedInput
    ∧ HookErr.malformedInput ≠ HookErr.unknownEventKind :=
  ⟨rfl, by decide⟩

/-- C7 amended: an unknown event-kind string is a fatal error raised after
stdin has been read and parsed (malformed stdin takes precedence and is
itself fatal), and in both failure modes nothing is written to stdout and
the store is untouched. -/
theorem unknown_kind_fatal_amended (ht : String) (s : St)
    (h1 : ht ≠ "user-prompt-submit") (h2 : ht ≠ "stop") (h3 : ht ≠ "notification") :
    (∀ input, HookHandler.handle_from_stdin ht (some input) s = .error .unknownEventKind)
    ∧ HookHandler.handle_from_stdin ht none s = .error .malformedInput
    ∧ (∀ stdin, main_hook ht stdin s = (none, s))
    ∧ (∀ ht2, main_hook ht2 none s = (none, s)) := by
  refine ⟨?_, rfl, ?_, fun ht2 => rfl⟩
  · intro input
    simp [HookHandler.handle_from_stdin, HookHandler.handle, h1, h2, h3]
  · intro stdin
    cases stdin with
    | none => rfl
    | some input =>
      simp [main_hook, HookHandler.handle_from_stdin, HookHandler.handle, h1, h2, h3]

/-- Witness for the amended C7 at the event kind `bogus`. -/
theorem unknown_kind_fatal_amended_witness :
    ("bogus" : String) ≠ "user-prompt-submit"
    ∧ HookHandler.handle_from_stdin "bogus" (some {}) st0 = .error .unknownEventKind
    ∧ main_hook "bogus" (some {}) st0 = (none, st0) := by
  have h := unknown_kind_fatal_amended "bogus" st0 (by decide) (by decide) (by decide)
  exact ⟨by decide, h.1 {}, h.2.2.1 (some {})⟩

/-- Recording a session id whose trimmed form is non-empty makes it
disabled: the core of the round-trip property. -/
theorem is_session_disabled_disable_session (s : St) (id : String)
    (h : trimIsEmpty id = false) :
    is_session_disabled (disable_session s id) id = true := by
  simp [disable_session, h, is_session_disabled, save_disabled_sessions,
    load_disabled_sessions]
  exact mem_insertSession id _

/-- C8 counterexample: the whitespace-only id `" "` is a non-empty string,
yet recording it is a no-op and the follow-up query returns false, because
both operations first trim the id. -/
theorem disable_session_whitespace_noop :
    (" " : String) ≠ ""
    ∧ is_session_disabled (disable_session st0 " ") " " = false :=
  ⟨by decide, by decide⟩

/-- C8 amended: for every id whose whitespace-trimmed form is non-empty,
`disable_session` followed by `is_session_disabled` returns true; for the
empty-string id, `disable_session` is a no-op and `is_session_disabled`
returns false. -/
theorem disable_session_roundtrip_amended (s : St) (id : String)
    (h : trimIsEmpty id = false) :
    is_session_disabled (disable_session s id) id = true
    ∧ disable_session s "" = s
    ∧ is_session_disabled s "" = false := by
  have hte : trimIsEmpty "" = true := by decide
  exact ⟨is_session_disabled_disable_session s id h,
    by simp [disable_session, hte], by simp [is_session_disabled, hte]⟩

/-- Witness for the amended C8 at the id `s1`. -/
theorem disable_session_roundtrip_amended_witness :
    trimIsEmpty "s1" = false
    ∧ is_session_disabled (disable_session st0 "s1") "s1" = true :=
  ⟨by decide, (disable_session_roundtrip_amended st0 "s1" (by decide)).1⟩

/-- C9 counterexample: for the non-empty whitespace-only id `" "`, the
`>remote-off` responder records nothing (the store is returned unchanged)
even though the claim says the event's sessionId is added; the warning text
is attached instead. -/
theorem remote_off_whitespace_no_record :
    (" " : String) ≠ ""
    ∧ handle_remote_off st0 " " = .ok (.block (remoteOffReason " " remoteOffWarning), st0)
    ∧ is_session_disabled st0 " " = false :=
  ⟨by decide, by decide, by decide⟩

/-- C9 amended: for an id whose trimmed form is non-empty the responder adds
it to the disabled-session set and leaves the config record and the lock
artifact unchanged; it always returns Block; and when the id trims to empty
(in particular the empty string) it makes no record and the reason carries
the explicit no-session-id warning. -/
theorem remote_off_amended (s : St) (id : String) :
    (trimIsEmpty id = false →
      handle_remote_off s id = .ok (.block (remoteOffReason id ""), disable_session s id)
      ∧ is_session_disabled (disable_session s id) id = true
      ∧ (disable_session s id).configFile = s.configFile
      ∧ (disable_session s id).lockFile = s.lockFile)
    ∧ (trimIsEmpty id = true →
      handle_remote_off s id = .ok (.block (remoteOffReason id remoteOffWarning), s))
    ∧ (handle_remote_off s id).map (fun r => r.1.isBlock) = .ok true := by
  refine ⟨fun h => ⟨?_, is_session_disabled_disable_session s id h, ?_, ?_⟩, fun h => ?_, ?_⟩
  · simp [handle_remote_off, h]
  · unfold disable_session
    split <;> rfl
  · unfold disable_session
    split <;> rfl
  · simp [handle_remote_off, h]
  · cases hti : trimIsEmpty id <;>
      simp [handle_remote_off, hti, Except.map, HookDecision.isBlock]

/-- Witness for the amended C9 at the empty session id. -/
theorem remote_off_amended_witness :
    trimIsEmpty "" = true
    ∧ handle_remote_off st0 "" = .ok (.block (remoteOffReason "" remoteOffWarning), st0) :=
  ⟨by decide, (remote_off_amended st0 "").2.1 (by decide)⟩

/-- Store whose disabled-session file exists but holds invalid JSON. -/
def stCorrupt : St := { st0 with sessionFile := some none }

/-- C10: an existing disabled-session file with invalid JSON is silently the
empty set — `is_session_disabled` is false for every id and never errors —
and a subsequent `disable_session` overwrites the corrupt content with just
the new id, discarding whatever was there. -/
theorem corrupt_session_file_tolerated (s : St) (id : String)
    (hcorrupt : s.sessionFile = some none) :
    (∀ j, is_session_disabled s j = false)
    ∧ (trimIsEmpty id = false →
        disable_session s id = { s with sessionFile := some (some [id]) }) := by
  refine ⟨?_, fun h => ?_⟩
  · intro j
    cases htj : trimIsEmpty j <;>
      simp [is_session_disabled, htj, load_disabled_sessions, hcorrupt]
  · simp [disable_session, h, load_disabled_sessions, hcorrupt, insertSession,
      save_disabled_sessions]

/-- Witness for C10 on the corrupt store and the id `s1`. -/
theorem corrupt_session_file_tolerated_witness :
    stCorrupt.sessionFile = some none
    ∧ is_session_disabled stCorrupt "s1" = false
    ∧ disable_session stCorrupt "s1" = { stCorrupt with sessionFile := some (some ["s1"]) } :=
  ⟨rfl, (corrupt_session_file_tolerated stCorrupt "s1" rfl).1 "s1",
    (corrupt_session_file_tolerated stCorrupt "s1" rfl).2 (by decide)⟩

end GeweCC
